import Mathlib

/-!
Verification of the QuizMaster quiz application.

Shallow embedding of the client-side logic:
* `QuizInterface` (quiz session): answer collection, scoring, attempt
  submission, the countdown timer and its re-entrant submission guard,
  and question navigation.
* `Dashboard` / `QuizCard`: aggregate statistics over a user's attempts
  and per-quiz derived values.
* `QuizResults`: derived display metrics (percentage, letter grade,
  average time per question) and the three-stage result fetch.

JavaScript numbers on these code paths hold integers (scores, counts,
seconds), embedded as `Nat`/`Int`; `Math.round` on a quotient is
embedded as Mathlib's `round` on `ℚ`, which is `⌊x + 1/2⌋`, the same
function `Math.round` computes on non-negative reals.  A JS object used
as a string-keyed record is embedded as an association list.
-/

namespace QuizMaster

/-- A row of the `questions` table, as the `Question` interface of
`QuizInterface` declares it. -/
structure Question where
  id : String
  question_text : String
  option_a : String
  option_b : String
  option_c : String
  option_d : String
  correct_answer : String
  question_order : Nat
deriving DecidableEq

/-- The record inserted into `user_quiz_attempts` by `handleSubmit`. -/
structure AttemptInsert where
  user_id : String
  quiz_id : String
  score : Nat
  total_questions : Nat
  time_taken_seconds : Nat
  answers : List (String × String)
deriving DecidableEq

/-- The score computed by the `questions.forEach` loop of `handleSubmit`:
one point for each question whose stored answer is strictly equal to the
question's `correct_answer` (an absent answer never compares equal). -/
def calcScore (questions : List Question) (answers : List (String × String)) : Nat :=
  questions.countP fun q => decide (answers.lookup q.id = some q.correct_answer)

/-- The `userAnswers` record built by the same loop: one entry per question,
`answers[question.id] || ''`, i.e. the selected option key or the empty
string when the question was never answered. -/
def buildUserAnswers (questions : List Question) (answers : List (String × String)) :
    List (String × String) :=
  questions.map fun q => (q.id, (answers.lookup q.id).getD "")

/-- The `Math.floor((Date.now() - startTime) / 1000)` computation of
`handleSubmit`, on millisecond clock readings. -/
def elapsedSeconds (startTime now : Nat) : Nat :=
  (now - startTime) / 1000

/-- The attempt record `handleSubmit` passes to
`supabase.from('user_quiz_attempts').insert`. -/
def handleSubmitInsert (userId quizId : String) (questions : List Question)
    (answers : List (String × String)) (startTime now : Nat) : AttemptInsert :=
  { user_id := userId
    quiz_id := quizId
    score := calcScore questions answers
    total_questions := questions.length
    time_taken_seconds := elapsedSeconds startTime now
    answers := buildUserAnswers questions answers }

/-- Looking up a question's id in the per-question map built by
`handleSubmit` returns its stored (possibly empty) answer, provided the
question ids are pairwise distinct. -/
theorem lookup_buildUserAnswers (questions : List Question)
    (answers : List (String × String))
    (hids : (questions.map fun q => q.id).Nodup)
    (q : Question) (hq : q ∈ questions) :
    (buildUserAnswers questions answers).lookup q.id =
      some ((answers.lookup q.id).getD "") := by
  induction questions with
  | nil => cases hq
  | cons p rest ih =>
    simp only [List.map_cons, List.nodup_cons, List.mem_map] at hids
    rcases List.mem_cons.mp hq with rfl | hmem
    · simp [buildUserAnswers, List.lookup]
    · have hne : q.id ≠ p.id := by
        intro h
        exact hids.1 ⟨q, hmem, h⟩
      have : (q.id == p.id) = false := beq_false_of_ne hne
      simpa [buildUserAnswers, List.lookup, this] using ih hids.2 hmem

/-- Claim C1: the attempt persisted by submission (manual or timeout) has
score equal to the number of questions whose collected answer equals the
question's `correct_answer` (an unanswered question, stored as the empty
string, never matches, `correct_answer` being a non-empty option key);
its answers map has exactly one entry per question — the selected option
key or the empty string; its `total_questions` is the number of
questions; and its `time_taken_seconds` is the elapsed whole seconds
since session start. -/
theorem submitted_attempt_correct (userId quizId : String)
    (questions : List Question) (answers : List (String × String))
    (startTime now : Nat)
    (hids : (questions.map fun q => q.id).Nodup)
    (hca : ∀ q ∈ questions, q.correct_answer ≠ "") :
    (handleSubmitInsert userId quizId questions answers startTime now).score =
      questions.countP
        (fun q => decide ((answers.lookup q.id).getD "" = q.correct_answer)) ∧
    (handleSubmitInsert userId quizId questions answers startTime now).answers.length =
      questions.length ∧
    (∀ q ∈ questions,
      (handleSubmitInsert userId quizId questions answers startTime now).answers.lookup q.id =
        some ((answers.lookup q.id).getD "")) ∧
    (handleSubmitInsert userId quizId questions answers startTime now).total_questions =
      questions.length ∧
    (handleSubmitInsert userId quizId questions answers startTime now).time_taken_seconds =
      (now - startTime) / 1000 := by
  refine ⟨?_, ?_, ?_, rfl, rfl⟩
  · unfold handleSubmitInsert calcScore
    apply List.countP_congr
    intro q hq
    have hne := hca q hq
    cases h : answers.lookup q.id with
    | none => simp [h, Ne.symm hne]
    | some v => simp [h]
  · simp [handleSubmitInsert, buildUserAnswers]
  · intro q hq
    exact lookup_buildUserAnswers questions answers hids q hq

/-- The spec's scenario quiz: five questions with correct answers A, B, C,
D, A. -/
def sampleQuestions : List Question :=
  [⟨"q1", "Q1", "a", "b", "c", "d", "A", 1⟩,
   ⟨"q2", "Q2", "a", "b", "c", "d", "B", 2⟩,
   ⟨"q3", "Q3", "a", "b", "c", "d", "C", 3⟩,
   ⟨"q4", "Q4", "a", "b", "c", "d", "D", 4⟩,
   ⟨"q5", "Q5", "a", "b", "c", "d", "A", 5⟩]

/-- The spec's scenario answer map: three correct answers, two questions
left blank. -/
def sampleAnswers : List (String × String) :=
  [("q1", "A"), ("q2", "B"), ("q3", "C")]

/-- Witness for C1: the spec's scenario (5 questions, 3 answered
correctly, 2 blank, 125 elapsed seconds) yields score 3, total 5,
time 125, and an answers map with exactly 5 entries. -/
theorem submitted_attempt_correct_witness :
    (handleSubmitInsert "user-1" "quiz-1" sampleQuestions sampleAnswers 0 125999).score = 3 ∧
    (handleSubmitInsert "user-1" "quiz-1" sampleQuestions sampleAnswers 0 125999).total_questions = 5 ∧
    (handleSubmitInsert "user-1" "quiz-1" sampleQuestions sampleAnswers 0 125999).time_taken_seconds = 125 ∧
    (handleSubmitInsert "user-1" "quiz-1" sampleQuestions sampleAnswers 0 125999).answers.length = 5 ∧
    ∀ q ∈ sampleQuestions,
      (handleSubmitInsert "user-1" "quiz-1" sampleQuestions sampleAnswers 0 125999).answers.lookup q.id =
        some ((sampleAnswers.lookup q.id).getD "") := by
  have h := submitted_attempt_correct "user-1" "quiz-1" sampleQuestions sampleAnswers
    0 125999 (by decide) (by decide)
  exact ⟨by decide, by decide, by decide, by decide, h.2.2.1⟩

/-- The fixed data of one quiz session: the identities, the fetched
question list, the answer map collected so far, and the recorded
`startTime` (all held constant while the timer and submissions race). -/
structure SessionCtx where
  userId : String
  quizId : String
  questions : List Question
  answers : List (String × String)
  startTime : Nat

/-- The mutable component state driving the countdown and the submission
guard: `timeLeft` (seconds remaining), the wall clock in milliseconds,
the `submitting` flag, the list of attempt inserts issued so far, and a
count of automatic-submission triggers (for specification only). -/
structure SessionState where
  timeLeft : Int
  nowMs : Nat
  submitting : Bool
  attemptInserts : List AttemptInsert
  autoTriggers : Nat
deriving DecidableEq

/-- The body of `handleSubmit` (with `quiz` and `user` present): return
immediately when `submitting` is already set, otherwise set it and issue
the single attempt insert computed from the current session data. -/
def submitStep (c : SessionCtx) (s : SessionState) : SessionState :=
  if s.submitting then s
  else
    { s with
      submitting := true
      attemptInserts := s.attemptInserts ++
        [handleSubmitInsert c.userId c.quizId c.questions c.answers c.startTime s.nowMs] }

/-- One session event: a one-second timer tick, or the user pressing the
Submit button. -/
inductive SessionEvent where
  | tick
  | manualSubmit
deriving DecidableEq

/-- The countdown effect combined with `handleSubmit`: while `timeLeft >
0` a tick advances the clock one second and decrements `timeLeft`, and
the effect re-runs on the new value — when it has reached `0` (with the
quiz loaded) it calls `handleSubmit`.  At `timeLeft = 0` no timer is
armed, so a tick changes nothing.  A manual submit calls `handleSubmit`
directly. -/
def sessionStep (c : SessionCtx) (s : SessionState) : SessionEvent → SessionState
  | .tick =>
    if 0 < s.timeLeft then
      if s.timeLeft - 1 = 0 then
        submitStep c
          { s with
            timeLeft := s.timeLeft - 1
            nowMs := s.nowMs + 1000
            autoTriggers := s.autoTriggers + 1 }
      else { s with timeLeft := s.timeLeft - 1, nowMs := s.nowMs + 1000 }
    else s
  | .manualSubmit => submitStep c s

/-- The session state right after a successful load: `timeLeft`
initialized to `duration_minutes * 60`, the clock at `startTime`, no
submission in flight. -/
def initSession (c : SessionCtx) (durationMinutes : Int) : SessionState :=
  { timeLeft := durationMinutes * 60
    nowMs := c.startTime
    submitting := false
    attemptInserts := []
    autoTriggers := 0 }

/-- Run a quiz session from load through a sequence of events. -/
def runSession (c : SessionCtx) (durationMinutes : Int) (events : List SessionEvent) :
    SessionState :=
  events.foldl (sessionStep c) (initSession c durationMinutes)

/-- The inductive invariant of an active session with positive duration:
the countdown is non-negative, exactly one insert has been issued iff
the guard flag is set, the automatic trigger has fired exactly when the
countdown has reached zero, and every issued insert is the record a
(manual) `handleSubmit` produces at some instant. -/
def SessionInv (c : SessionCtx) (s : SessionState) : Prop :=
  0 ≤ s.timeLeft ∧
  s.attemptInserts.length = (if s.submitting then 1 else 0) ∧
  s.autoTriggers = (if s.timeLeft = 0 then 1 else 0) ∧
  ∀ a ∈ s.attemptInserts,
    ∃ t, a = handleSubmitInsert c.userId c.quizId c.questions c.answers c.startTime t

/-- `submitStep` preserves the session invariant. -/
theorem sessionInv_submitStep (c : SessionCtx) (s : SessionState)
    (h : SessionInv c s) : SessionInv c (submitStep c s) := by
  obtain ⟨h1, h2, h3, h4⟩ := h
  unfold submitStep
  by_cases hs : s.submitting
  · rw [if_pos hs]
    exact ⟨h1, h2, h3, h4⟩
  · rw [if_neg hs]
    refine ⟨h1, ?_, h3, ?_⟩
    · rw [if_neg hs] at h2
      have hnil : s.attemptInserts = [] := List.length_eq_zero.mp h2
      simp [hnil]
    · intro a ha
      rcases List.mem_append.mp ha with ha | ha
      · exact h4 a ha
      · rcases List.mem_singleton.mp ha with rfl
        exact ⟨s.nowMs, rfl⟩

/-- Every session event preserves the session invariant. -/
theorem sessionInv_step (c : SessionCtx) (s : SessionState) (e : SessionEvent)
    (h : SessionInv c s) : SessionInv c (sessionStep c s e) := by
  obtain ⟨h1, h2, h3, h4⟩ := h
  cases e with
  | manualSubmit => exact sessionInv_submitStep c s ⟨h1, h2, h3, h4⟩
  | tick =>
    unfold sessionStep
    by_cases ht : 0 < s.timeLeft
    · have hnz : ¬ s.timeLeft = 0 := by omega
      rw [if_pos ht]
      by_cases hz : s.timeLeft - 1 = 0
      · rw [if_pos hz]
        apply sessionInv_submitStep
        refine ⟨show (0:Int) ≤ s.timeLeft - 1 by omega, h2, ?_, h4⟩
        show s.autoTriggers + 1 = if s.timeLeft - 1 = 0 then 1 else 0
        rw [h3, if_neg hnz, if_pos hz]
      · rw [if_neg hz]
        refine ⟨show (0:Int) ≤ s.timeLeft - 1 by omega, h2, ?_, h4⟩
        show s.autoTriggers = if s.timeLeft - 1 = 0 then 1 else 0
        rw [h3, if_neg hnz, if_neg hz]
    · rw [if_neg ht]
      exact ⟨h1, h2, h3, h4⟩

/-- The session invariant holds in every reachable state of a session
with positive duration. -/
theorem sessionInv_runSession (c : SessionCtx) (d : Int) (events : List SessionEvent)
    (hd : 0 < d) : SessionInv c (runSession c d events) := by
  have hinit : SessionInv c (initSession c d) := by
    refine ⟨by simp [initSession]; omega, by simp [initSession], ?_, by simp [initSession]⟩
    have : ¬ d * 60 = 0 := by omega
    simp [initSession, this]
  unfold runSession
  generalize initSession c d = s0 at hinit
  induction events generalizing s0 with
  | nil => exact hinit
  | cons e rest ih => exact ih _ (sessionInv_step c s0 e hinit)

/-- Claim C2: in a session with positive duration, for every interleaving
of timer ticks and manual submit actions, at most one attempt insert is
issued; the automatic submission fires exactly once when the countdown
reaches zero (at most once overall, and exactly once whenever the
countdown has reached zero); and every issued attempt — automatic or
manual — is the record `handleSubmit` builds from the session data, i.e.
has the same shape a manual submission would produce. -/
theorem single_submission_guard (c : SessionCtx) (d : Int)
    (events : List SessionEvent) (hd : 0 < d) :
    (runSession c d events).attemptInserts.length ≤ 1 ∧
    (runSession c d events).autoTriggers ≤ 1 ∧
    ((runSession c d events).timeLeft = 0 → (runSession c d events).autoTriggers = 1) ∧
    ∀ a ∈ (runSession c d events).attemptInserts,
      ∃ t, a = handleSubmitInsert c.userId c.quizId c.questions c.answers c.startTime t := by
  obtain ⟨h1, h2, h3, h4⟩ := sessionInv_runSession c d events hd
  refine ⟨?_, ?_, ?_, h4⟩
  · rw [h2]
    split <;> omega
  · rw [h3]
    split <;> omega
  · intro hz
    rw [h3, if_pos hz]

/-- Witness for C2: a one-minute session receiving a tick followed by a
manual submit. -/
theorem single_submission_guard_witness :
    (0 : Int) < 1 ∧
    ((runSession ⟨"u", "q", [], [], 0⟩ 1
        [SessionEvent.tick, SessionEvent.manualSubmit]).attemptInserts.length ≤ 1 ∧
      (runSession ⟨"u", "q", [], [], 0⟩ 1
        [SessionEvent.tick, SessionEvent.manualSubmit]).autoTriggers ≤ 1 ∧
      ((runSession ⟨"u", "q", [], [], 0⟩ 1
          [SessionEvent.tick, SessionEvent.manualSubmit]).timeLeft = 0 →
        (runSession ⟨"u", "q", [], [], 0⟩ 1
          [SessionEvent.tick, SessionEvent.manualSubmit]).autoTriggers = 1) ∧
      ∀ a ∈ (runSession ⟨"u", "q", [], [], 0⟩ 1
          [SessionEvent.tick, SessionEvent.manualSubmit]).attemptInserts,
        ∃ t, a = handleSubmitInsert "u" "q" [] [] 0 t) :=
  ⟨by decide,
   single_submission_guard ⟨"u", "q", [], [], 0⟩ 1
     [SessionEvent.tick, SessionEvent.manualSubmit] (by decide)⟩

/-- `handleSubmit` does not touch the countdown. -/
theorem submitStep_timeLeft (c : SessionCtx) (s : SessionState) :
    (submitStep c s).timeLeft = s.timeLeft := by
  unfold submitStep
  split <;> rfl

/-- Ticks never drive the countdown below zero, and submissions do not
change it. -/
theorem sessionStep_timeLeft_nonneg (c : SessionCtx) (s : SessionState)
    (e : SessionEvent) (h : 0 ≤ s.timeLeft) : 0 ≤ (sessionStep c s e).timeLeft := by
  cases e with
  | manualSubmit =>
    show 0 ≤ (submitStep c s).timeLeft
    rw [submitStep_timeLeft]
    exact h
  | tick =>
    unfold sessionStep
    by_cases ht : 0 < s.timeLeft
    · rw [if_pos ht]
      by_cases hz : s.timeLeft - 1 = 0
      · rw [if_pos hz, submitStep_timeLeft]
        show (0:Int) ≤ s.timeLeft - 1
        omega
      · rw [if_neg hz]
        show (0:Int) ≤ s.timeLeft - 1
        omega
    · rw [if_neg ht]
      exact h

/-- Claim C9: for every session with non-negative duration, the remaining
countdown time is never negative in any reachable state — the one-second
tick decrements `timeLeft` only when it is strictly positive. -/
theorem timeLeft_nonneg (c : SessionCtx) (d : Int) (events : List SessionEvent)
    (hd : 0 ≤ d) : 0 ≤ (runSession c d events).timeLeft := by
  have hinit : 0 ≤ (initSession c d).timeLeft := by
    show (0:Int) ≤ d * 60
    omega
  unfold runSession
  generalize initSession c d = s0 at hinit
  induction events generalizing s0 with
  | nil => exact hinit
  | cons e rest ih => exact ih _ (sessionStep_timeLeft_nonneg c s0 e hinit)

/-- Witness for C9: a one-minute session ticked three times keeps a
non-negative countdown. -/
theorem timeLeft_nonneg_witness :
    (0 : Int) ≤ 1 ∧
    0 ≤ (runSession ⟨"u", "q", [], [], 0⟩ 1
      [SessionEvent.tick, SessionEvent.tick, SessionEvent.tick]).timeLeft :=
  ⟨by decide,
   timeLeft_nonneg ⟨"u", "q", [], [], 0⟩ 1
     [SessionEvent.tick, SessionEvent.tick, SessionEvent.tick] (by decide)⟩

/-- A row of `user_quiz_attempts` as the Dashboard's `QuizAttempt`
interface declares it. -/
structure QuizAttempt where
  quiz_id : String
  score : Nat
  total_questions : Nat
  time_taken_seconds : Nat
deriving DecidableEq

/-- The per-attempt percentage `Math.round((attempt.score /
attempt.total_questions) * 100)` used by `fetchUserStats` and
`getBestScore`. -/
def percentScore (a : QuizAttempt) : Int :=
  round ((a.score : ℚ) / (a.total_questions : ℚ) * 100)

/-- `Math.max(...)` applied to a spread list; the Dashboard only ever
applies it to a non-empty list, so the `[]` case is never reached. -/
def mathMax : List Int → Int
  | [] => 0
  | x :: xs => xs.foldl max x

/-- The `UserStats` record held in Dashboard state. -/
structure UserStats where
  totalAttempts : Nat
  averageScore : Int
  bestScore : Int
  timeSpent : Nat
deriving DecidableEq

/-- The Dashboard's initial `userStats` state, left untouched when the
attempts list is empty. -/
def emptyUserStats : UserStats :=
  { totalAttempts := 0, averageScore := 0, bestScore := 0, timeSpent := 0 }

/-- The stats computation of `fetchUserStats`: when at least one attempt
exists, total attempts, the guarded average `totalPossibleScore > 0 ?
Math.round((totalScore / totalPossibleScore) * 100) : 0`, the best
per-attempt percentage, and the summed time; otherwise the initial
state stands. -/
def fetchUserStats (attempts : List QuizAttempt) : UserStats :=
  if 0 < attempts.length then
    { totalAttempts := attempts.length
      averageScore :=
        if 0 < (attempts.map fun a => a.total_questions).sum then
          round (((attempts.map fun a => a.score).sum : ℚ) /
            ((attempts.map fun a => a.total_questions).sum : ℚ) * 100)
        else 0
      bestScore := mathMax (attempts.map percentScore)
      timeSpent := (attempts.map fun a => a.time_taken_seconds).sum }
  else emptyUserStats

/-- The Dashboard's `getQuizAttempts`: the number of stored attempts whose
`quiz_id` is the given quiz's. -/
def getQuizAttempts (quizAttempts : List QuizAttempt) (quizId : String) : Nat :=
  (quizAttempts.filter fun a => decide (a.quiz_id = quizId)).length

/-- The Dashboard's `getBestScore`: `undefined` when the quiz has no
attempts, otherwise the maximum per-attempt percentage among the
attempts filtered by `quiz_id`. -/
def getBestScore (quizAttempts : List QuizAttempt) (quizId : String) : Option Int :=
  if (quizAttempts.filter fun a => decide (a.quiz_id = quizId)).length = 0 then none
  else some (mathMax ((quizAttempts.filter fun a => decide (a.quiz_id = quizId)).map percentScore))

/-- A left fold of `max` is an upper bound of the accumulator and of every
list element, and is the accumulator or one of the elements. -/
theorem foldl_max_spec (l : List Int) (a : Int) :
    a ≤ l.foldl max a ∧ (∀ x ∈ l, x ≤ l.foldl max a) ∧
      (l.foldl max a = a ∨ l.foldl max a ∈ l) := by
  induction l generalizing a with
  | nil =>
    exact ⟨le_refl a, fun x hx => absurd hx (List.not_mem_nil x), Or.inl rfl⟩
  | cons y ys ih =>
    obtain ⟨ih1, ih2, ih3⟩ := ih (max a y)
    rw [List.foldl_cons]
    refine ⟨le_trans (le_max_left a y) ih1, ?_, ?_⟩
    · intro x hx
      rcases List.mem_cons.mp hx with rfl | hx
      · exact le_trans (le_max_right a x) ih1
      · exact ih2 x hx
    · rcases ih3 with h | h
      · rcases max_cases a y with ⟨he, _⟩ | ⟨he, _⟩
        · exact Or.inl (h.trans he)
        · refine Or.inr ?_
          rw [h, he]
          exact List.mem_cons_self y ys
      · exact Or.inr (List.mem_cons_of_mem y h)

/-- On a non-empty list, `mathMax` is the maximum: it is an element and an
upper bound. -/
theorem mathMax_spec (l : List Int) (hl : l ≠ []) :
    mathMax l ∈ l ∧ ∀ x ∈ l, x ≤ mathMax l := by
  cases l with
  | nil => exact absurd rfl hl
  | cons y ys =>
    obtain ⟨h1, h2, h3⟩ := foldl_max_spec ys y
    constructor
    · rcases h3 with h | h
      · rw [mathMax, h]
        exact List.mem_cons_self y ys
      · exact List.mem_cons_of_mem y h
    · intro x hx
      rcases List.mem_cons.mp hx with rfl | hx
      · exact h1
      · exact h2 x hx

/-- The per-attempt percentage computed by the code equals the spec's
`round(100 * score / total_questions)`. -/
theorem percentScore_eq (a : QuizAttempt) :
    percentScore a = round (100 * (a.score : ℚ) / (a.total_questions : ℚ)) := by
  unfold percentScore
  congr 1
  ring

/-- Claim C3: the dashboard aggregates satisfy: total attempts is the
length of the attempts list; time spent is the sum of
`time_taken_seconds`; the average score is 0 for an empty list and
`round(100 * sum(score) / sum(total_questions))` otherwise; and for a
non-empty list the best score is the maximum over the attempts of
`round(100 * score / total_questions)` (an element of that list of
percentages and an upper bound of it). -/
theorem dashboard_aggregate_stats (L : List QuizAttempt)
    (hT : ∀ a ∈ L, 0 < a.total_questions) :
    (fetchUserStats L).totalAttempts = L.length ∧
    (fetchUserStats L).timeSpent = (L.map fun a => a.time_taken_seconds).sum ∧
    (L = [] → (fetchUserStats L).averageScore = 0) ∧
    (L ≠ [] →
      (fetchUserStats L).averageScore =
        round (100 * ((L.map fun a => a.score).sum : ℚ) /
          ((L.map fun a => a.total_questions).sum : ℚ))) ∧
    (L ≠ [] →
      (fetchUserStats L).bestScore ∈
        L.map (fun a => round (100 * (a.score : ℚ) / (a.total_questions : ℚ))) ∧
      ∀ x ∈ L.map (fun a => round (100 * (a.score : ℚ) / (a.total_questions : ℚ))),
        x ≤ (fetchUserStats L).bestScore) := by
  by_cases hL : L = []
  · subst hL
    refine ⟨rfl, rfl, fun _ => rfl, ?_, ?_⟩ <;> (intro h; exact absurd rfl h)
  · have hlen : 0 < L.length := List.length_pos.mpr hL
    have hmap : L.map percentScore =
        L.map fun a => round (100 * (a.score : ℚ) / (a.total_questions : ℚ)) :=
      List.map_congr_left fun a _ => percentScore_eq a
    have hsum : 0 < (L.map fun a => a.total_questions).sum := by
      apply List.sum_pos
      · intro x hx
        obtain ⟨a, ha, rfl⟩ := List.mem_map.mp hx
        exact hT a ha
      · exact fun h => hL (List.map_eq_nil_iff.mp h)
    refine ⟨?_, ?_, fun h => absurd h hL, ?_, ?_⟩
    · simp [fetchUserStats, hlen]
    · simp [fetchUserStats, hlen]
    · intro _
      show (if 0 < L.length then _ else emptyUserStats).averageScore = _
      rw [if_pos hlen]
      show (if 0 < (L.map fun a => a.total_questions).sum then _ else 0) = _
      rw [if_pos hsum]
      congr 1
      ring
    · intro _
      have hne : L.map percentScore ≠ [] := by
        intro h
        exact hL (List.map_eq_nil_iff.mp h)
      obtain ⟨hmem, hub⟩ := mathMax_spec (L.map percentScore) hne
      have hbest : (fetchUserStats L).bestScore = mathMax (L.map percentScore) := by
        show (if 0 < L.length then _ else emptyUserStats).bestScore = _
        rw [if_pos hlen]
      rw [hbest, ← hmap]
      exact ⟨hmem, hub⟩

/-- Witness for C3: two attempts scoring 3/5 and 5/5. -/
theorem dashboard_aggregate_stats_witness :
    (∀ a ∈ [(⟨"quiz-1", 3, 5, 100⟩ : QuizAttempt), ⟨"quiz-1", 5, 5, 120⟩],
        0 < a.total_questions) ∧
    (fetchUserStats [(⟨"quiz-1", 3, 5, 100⟩ : QuizAttempt), ⟨"quiz-1", 5, 5, 120⟩]).totalAttempts = 2 ∧
    (fetchUserStats [(⟨"quiz-1", 3, 5, 100⟩ : QuizAttempt), ⟨"quiz-1", 5, 5, 120⟩]).timeSpent = 220 ∧
    (([(⟨"quiz-1", 3, 5, 100⟩ : QuizAttempt), ⟨"quiz-1", 5, 5, 120⟩] : List QuizAttempt) ≠ [] →
      (fetchUserStats [(⟨"quiz-1", 3, 5, 100⟩ : QuizAttempt), ⟨"quiz-1", 5, 5, 120⟩]).averageScore =
        round (100 * (([(⟨"quiz-1", 3, 5, 100⟩ : QuizAttempt), ⟨"quiz-1", 5, 5, 120⟩].map fun a => a.score).sum : ℚ) /
          (([(⟨"quiz-1", 3, 5, 100⟩ : QuizAttempt), ⟨"quiz-1", 5, 5, 120⟩].map fun a => a.total_questions).sum : ℚ))) := by
  have h := dashboard_aggregate_stats
    [(⟨"quiz-1", 3, 5, 100⟩ : QuizAttempt), ⟨"quiz-1", 5, 5, 120⟩] (by decide)
  exact ⟨by decide, by rw [h.1]; rfl, by rw [h.2.1]; rfl, h.2.2.2.1⟩

/-- Claim C10: even for a non-empty attempts list in which every attempt
has `total_questions = 0`, the average score is computed as the guarded
fallback 0 — the division only runs when the summed denominator is
positive. -/
theorem average_guard_zero_totals (L : List QuizAttempt) (hne : L ≠ [])
    (h0 : ∀ a ∈ L, a.total_questions = 0) :
    (fetchUserStats L).averageScore = 0 := by
  have hlen : 0 < L.length := List.length_pos.mpr hne
  have hsum : (L.map fun a => a.total_questions).sum = 0 := by
    apply List.sum_eq_zero
    intro x hx
    obtain ⟨a, ha, rfl⟩ := List.mem_map.mp hx
    exact h0 a ha
  show (if 0 < L.length then _ else emptyUserStats).averageScore = _
  rw [if_pos hlen]
  show (if 0 < (L.map fun a => a.total_questions).sum then _ else 0) = _
  rw [hsum]
  rfl

/-- Witness for C10: one attempt over a quiz with zero questions. -/
theorem average_guard_zero_totals_witness :
    ([(⟨"quiz-1", 0, 0, 7⟩ : QuizAttempt)] : List QuizAttempt) ≠ [] ∧
    (∀ a ∈ [(⟨"quiz-1", 0, 0, 7⟩ : QuizAttempt)], a.total_questions = 0) ∧
    (fetchUserStats [(⟨"quiz-1", 0, 0, 7⟩ : QuizAttempt)]).averageScore = 0 :=
  ⟨by decide, by decide,
   average_guard_zero_totals [⟨"quiz-1", 0, 0, 7⟩] (by decide) (by decide)⟩

/-- Claim C5: the quiz card's per-quiz attempt count is the number of
attempts with the card's `quiz_id`; its per-quiz best score is absent
exactly when that quiz has no attempts, and otherwise is the maximum
over the filtered attempts of `round(100 * score / total_questions)`;
both are computed by filtering the attempts list; in the spec's
scenario of two attempts on one quiz scoring 3/5 and 5/5, the count is
2 and the best score 100. -/
theorem quiz_card_per_quiz (L : List QuizAttempt) (quizId : String)
    (_hT : ∀ a ∈ L, a.quiz_id = quizId → 0 < a.total_questions) :
    getQuizAttempts L quizId = L.countP (fun a => decide (a.quiz_id = quizId)) ∧
    (getBestScore L quizId = none ↔
      L.countP (fun a => decide (a.quiz_id = quizId)) = 0) ∧
    (∀ b, getBestScore L quizId = some b →
      b ∈ (L.filter fun a => decide (a.quiz_id = quizId)).map
          (fun a => round (100 * (a.score : ℚ) / (a.total_questions : ℚ))) ∧
      ∀ x ∈ (L.filter fun a => decide (a.quiz_id = quizId)).map
          (fun a => round (100 * (a.score : ℚ) / (a.total_questions : ℚ))), x ≤ b) ∧
    getQuizAttempts [(⟨"quiz-1", 3, 5, 100⟩ : QuizAttempt), ⟨"quiz-1", 5, 5, 120⟩] "quiz-1" = 2 ∧
    getBestScore [(⟨"quiz-1", 3, 5, 100⟩ : QuizAttempt), ⟨"quiz-1", 5, 5, 120⟩] "quiz-1" =
      some 100 := by
  refine ⟨(List.countP_eq_length_filter _ _).symm, ?_, ?_, by decide, ?_⟩
  · rw [List.countP_eq_length_filter]
    unfold getBestScore
    constructor
    · intro h
      by_contra hne
      rw [if_neg hne] at h
      exact Option.noConfusion h
    · intro h
      rw [if_pos h]
  · intro b hb
    unfold getBestScore at hb
    by_cases hz : (L.filter fun a => decide (a.quiz_id = quizId)).length = 0
    · rw [if_pos hz] at hb
      exact Option.noConfusion hb
    · rw [if_neg hz] at hb
      have hb' := Option.some.inj hb
      have hne : (L.filter fun a => decide (a.quiz_id = quizId)).map percentScore ≠ [] := by
        intro h
        exact hz (by simpa using congrArg List.length (List.map_eq_nil_iff.mp h))
      obtain ⟨hmem, hub⟩ := mathMax_spec _ hne
      have hmap : (L.filter fun a => decide (a.quiz_id = quizId)).map percentScore =
          (L.filter fun a => decide (a.quiz_id = quizId)).map
            (fun a => round (100 * (a.score : ℚ) / (a.total_questions : ℚ))) :=
        List.map_congr_left fun a _ => percentScore_eq a
      rw [← hb', ← hmap]
      exact ⟨hmem, hub⟩
  · unfold getBestScore
    rw [if_neg (by decide)]
    have : ([(⟨"quiz-1", 3, 5, 100⟩ : QuizAttempt), ⟨"quiz-1", 5, 5, 120⟩].filter
        fun a => decide (a.quiz_id = "quiz-1")) =
        [(⟨"quiz-1", 3, 5, 100⟩ : QuizAttempt), ⟨"quiz-1", 5, 5, 120⟩] := by decide
    rw [this]
    show some (mathMax [percentScore ⟨"quiz-1", 3, 5, 100⟩, percentScore ⟨"quiz-1", 5, 5, 120⟩]) =
      some 100
    have h1 : percentScore ⟨"quiz-1", 3, 5, 100⟩ = 60 := by
      unfold percentScore
      norm_num [round_eq]
    have h2 : percentScore ⟨"quiz-1", 5, 5, 120⟩ = 100 := by
      unfold percentScore
      norm_num [round_eq]
    rw [h1, h2]
    rfl

/-- Witness for C5: the spec's scenario list of two attempts on one
quiz. -/
theorem quiz_card_per_quiz_witness :
    (∀ a ∈ [(⟨"quiz-1", 3, 5, 100⟩ : QuizAttempt), ⟨"quiz-1", 5, 5, 120⟩],
        a.quiz_id = "quiz-1" → 0 < a.total_questions) ∧
    getQuizAttempts [(⟨"quiz-1", 3, 5, 100⟩ : QuizAttempt), ⟨"quiz-1", 5, 5, 120⟩] "quiz-1" = 2 ∧
    getBestScore [(⟨"quiz-1", 3, 5, 100⟩ : QuizAttempt), ⟨"quiz-1", 5, 5, 120⟩] "quiz-1" =
      some 100 := by
  have h := quiz_card_per_quiz
    [(⟨"quiz-1", 3, 5, 100⟩ : QuizAttempt), ⟨"quiz-1", 5, 5, 120⟩] "quiz-1" (by decide)
  exact ⟨by decide, h.2.2.2.1, h.2.2.2.2⟩

/-- The Results Viewer's `scorePercentage`:
`Math.round((score / totalQuestions) * 100)`. -/
def scorePercentage (score totalQuestions : Nat) : Int :=
  round ((score : ℚ) / (totalQuestions : ℚ) * 100)

/-- The grade ternary chain rendered by `QuizResults`: thresholds 90, 80,
70, 60 for A, B, C, D, otherwise F. -/
def letterGrade (p : Int) : String :=
  if 90 ≤ p then "A"
  else if 80 ≤ p then "B"
  else if 70 ≤ p then "C"
  else if 60 ≤ p then "D"
  else "F"

/-- The Results Viewer's average time per question:
`Math.round(timeTaken / totalQuestions)`. -/
def averageTimePerQuestion (timeTaken totalQuestions : Nat) : Int :=
  round ((timeTaken : ℚ) / (totalQuestions : ℚ))

/-- The grade chain buckets the percentage exactly at the thresholds
90/80/70/60. -/
theorem letterGrade_spec (p : Int) :
    (letterGrade p = "A" ↔ 90 ≤ p) ∧
    (letterGrade p = "B" ↔ 80 ≤ p ∧ p < 90) ∧
    (letterGrade p = "C" ↔ 70 ≤ p ∧ p < 80) ∧
    (letterGrade p = "D" ↔ 60 ≤ p ∧ p < 70) ∧
    (letterGrade p = "F" ↔ p < 60) := by
  unfold letterGrade
  split_ifs with h1 h2 h3 h4 <;>
    refine ⟨?_, ?_, ?_, ?_, ?_⟩ <;> simp <;> omega

/-- Claim C4: for a results view over score `s`, total `t > 0` and time
taken, the displayed percentage is `round(100 * s / t)`; the letter
grade is A, B, C, D or F exactly according to the 90/80/70/60
thresholds on that percentage; the average time per question is
`round(timeTaken / t)`; and in particular 3 out of 5 displays 60% with
grade D. -/
theorem results_display_metrics (s t timeTaken : Nat) (_ht : 0 < t) :
    scorePercentage s t = round (100 * (s : ℚ) / (t : ℚ)) ∧
    (letterGrade (scorePercentage s t) = "A" ↔ 90 ≤ scorePercentage s t) ∧
    (letterGrade (scorePercentage s t) = "B" ↔
      80 ≤ scorePercentage s t ∧ scorePercentage s t < 90) ∧
    (letterGrade (scorePercentage s t) = "C" ↔
      70 ≤ scorePercentage s t ∧ scorePercentage s t < 80) ∧
    (letterGrade (scorePercentage s t) = "D" ↔
      60 ≤ scorePercentage s t ∧ scorePercentage s t < 70) ∧
    (letterGrade (scorePercentage s t) = "F" ↔ scorePercentage s t < 60) ∧
    averageTimePerQuestion timeTaken t = round ((timeTaken : ℚ) / (t : ℚ)) ∧
    scorePercentage 3 5 = 60 ∧
    letterGrade (scorePercentage 3 5) = "D" := by
  obtain ⟨hA, hB, hC, hD, hF⟩ := letterGrade_spec (scorePercentage s t)
  have h35 : scorePercentage 3 5 = 60 := by
    unfold scorePercentage
    norm_num [round_eq]
  refine ⟨?_, hA, hB, hC, hD, hF, rfl, h35, ?_⟩
  · unfold scorePercentage
    congr 1
    ring
  · rw [h35]
    rfl

/-- Witness for C4: the spec's scenario, score 3 of 5 with 125 seconds
taken. -/
theorem results_display_metrics_witness :
    0 < 5 ∧
    (scorePercentage 3 5 = round (100 * (3 : ℚ) / (5 : ℚ)) ∧
      (letterGrade (scorePercentage 3 5) = "A" ↔ 90 ≤ scorePercentage 3 5) ∧
      (letterGrade (scorePercentage 3 5) = "B" ↔
        80 ≤ scorePercentage 3 5 ∧ scorePercentage 3 5 < 90) ∧
      (letterGrade (scorePercentage 3 5) = "C" ↔
        70 ≤ scorePercentage 3 5 ∧ scorePercentage 3 5 < 80) ∧
      (letterGrade (scorePercentage 3 5) = "D" ↔
        60 ≤ scorePercentage 3 5 ∧ scorePercentage 3 5 < 70) ∧
      (letterGrade (scorePercentage 3 5) = "F" ↔ scorePercentage 3 5 < 60) ∧
      averageTimePerQuestion 125 5 = round ((125 : ℚ) / (5 : ℚ)) ∧
      scorePercentage 3 5 = 60 ∧
      letterGrade (scorePercentage 3 5) = "D") :=
  ⟨by decide, results_display_metrics 3 5 125 (by decide)⟩

/-- A navigation action of the quiz session: the Previous button
(`Math.max(0, currentQuestionIndex - 1)`), the Next button
(`Math.min(questions.length - 1, currentQuestionIndex + 1)`), or one of
the numbered jump buttons (`setCurrentQuestionIndex(index)`). -/
inductive NavAction where
  | previous
  | next
  | jump (index : Int)
deriving DecidableEq

/-- The `setCurrentQuestionIndex` update performed by each navigation
button. -/
def navStep (questionCount currentQuestionIndex : Int) : NavAction → Int
  | .previous => max 0 (currentQuestionIndex - 1)
  | .next => min (questionCount - 1) (currentQuestionIndex + 1)
  | .jump index => index

/-- The question index after a sequence of navigation actions, starting
from the initial index 0.  Answering questions plays no role: `navStep`
does not consult the answers map, so navigation is unrestricted. -/
def runNav (questionCount : Int) (actions : List NavAction) : Int :=
  actions.foldl (navStep questionCount) 0

/-- One valid navigation action keeps the index inside `[0, N-1]`. -/
theorem navStep_bounds (questionCount i : Int) (a : NavAction)
    (hN : 1 ≤ questionCount) (h0 : 0 ≤ i) (h1 : i < questionCount)
    (hj : ∀ j, a = NavAction.jump j → 0 ≤ j ∧ j < questionCount) :
    0 ≤ navStep questionCount i a ∧ navStep questionCount i a < questionCount := by
  cases a with
  | previous =>
    show 0 ≤ max 0 (i - 1) ∧ max 0 (i - 1) < questionCount
    omega
  | next =>
    show 0 ≤ min (questionCount - 1) (i + 1) ∧ min (questionCount - 1) (i + 1) < questionCount
    omega
  | jump j =>
    exact hj j rfl

/-- Claim C6: for a quiz with at least one question, starting at index 0,
every sequence of Previous/Next/jump actions (jump targets being the
rendered per-question buttons, hence indices of `[0, N-1]`) keeps the
current question index within `[0, N-1]`. -/
theorem nav_index_in_bounds (questionCount : Int) (actions : List NavAction)
    (hN : 1 ≤ questionCount)
    (hj : ∀ j, NavAction.jump j ∈ actions → 0 ≤ j ∧ j < questionCount) :
    0 ≤ runNav questionCount actions ∧ runNav questionCount actions < questionCount := by
  unfold runNav
  have key : ∀ (as : List NavAction) (i : Int), 0 ≤ i → i < questionCount →
      (∀ j, NavAction.jump j ∈ as → 0 ≤ j ∧ j < questionCount) →
      0 ≤ as.foldl (navStep questionCount) i ∧
        as.foldl (navStep questionCount) i < questionCount := by
    intro as
    induction as with
    | nil => exact fun i h0 h1 _ => ⟨h0, h1⟩
    | cons a rest ih =>
      intro i h0 h1 hjs
      rw [List.foldl_cons]
      obtain ⟨g0, g1⟩ := navStep_bounds questionCount i a hN h0 h1
        (fun j hja => hjs j (by rw [hja] at *; exact List.mem_cons_self _ _))
      exact ih _ g0 g1 (fun j hjm => hjs j (List.mem_cons_of_mem a hjm))
  exact key actions 0 le_rfl (by omega) hj

/-- Witness for C6: a three-question quiz navigated next, next, next,
jump to 0, previous. -/
theorem nav_index_in_bounds_witness :
    (1 : Int) ≤ 3 ∧
    0 ≤ runNav 3 [NavAction.next, NavAction.next, NavAction.next,
      NavAction.jump 0, NavAction.previous] ∧
    runNav 3 [NavAction.next, NavAction.next, NavAction.next,
      NavAction.jump 0, NavAction.previous] < 3 := by
  have h := nav_index_in_bounds 3
    [NavAction.next, NavAction.next, NavAction.next, NavAction.jump 0, NavAction.previous]
    (by decide)
    (by
      intro j hj
      simp only [List.mem_cons, List.not_mem_nil, or_false] at hj
      rcases hj with h | h | h | h | h <;> first
        | exact absurd h (by decide)
        | (cases h; exact ⟨by decide, by decide⟩)
        | cases h)
  exact ⟨by decide, h.1, h.2⟩

/-- The observable outcome of one `handleSubmit` call: the value of the
`submitting` flag after the call has finished (the `finally` block has
run), whether the catch block logged an error, the payload passed to
`onComplete` (none when it was not called), and the insert calls
issued. -/
structure SubmitResult where
  submitting : Bool
  loggedError : Bool
  completedPayload : Option (Nat × Nat × Nat)
  inserts : List AttemptInsert
deriving DecidableEq

/-- One full run of `handleSubmit` (with `quiz` and `user` present),
parametrised by whether a submission was already in flight and by the
backend's answer to the single insert.  When the guard passes, exactly
one insert is issued; on success `onComplete(score, totalQuestions,
timeTaken)` fires; on failure the error is logged and `onComplete` does
not fire; in every path the `finally` block resets `submitting` to
`false`. -/
def handleSubmitRun (userId quizId : String) (questions : List Question)
    (answers : List (String × String)) (startTime now : Nat)
    (alreadySubmitting insertOk : Bool) : SubmitResult :=
  if alreadySubmitting then
    { submitting := alreadySubmitting
      loggedError := false
      completedPayload := none
      inserts := [] }
  else if insertOk then
    { submitting := false
      loggedError := false
      completedPayload := some
        ((handleSubmitInsert userId quizId questions answers startTime now).score,
          questions.length,
          elapsedSeconds startTime now)
      inserts := [handleSubmitInsert userId quizId questions answers startTime now] }
  else
    { submitting := false
      loggedError := true
      completedPayload := none
      inserts := [handleSubmitInsert userId quizId questions answers startTime now] }

/-- Counterexample to C7 as stated: when the insert fails, the screen
does not remain in the Submitting state — the `finally` block resets
the `submitting` flag to `false`, although the error was indeed logged
and exactly one insert (no retry) was issued. -/
theorem submit_failure_not_stuck_submitting :
    (handleSubmitRun "u" "q" sampleQuestions sampleAnswers 0 125999 false false).loggedError
        = true ∧
    (handleSubmitRun "u" "q" sampleQuestions sampleAnswers 0 125999 false false).inserts.length
        = 1 ∧
    ¬ (handleSubmitRun "u" "q" sampleQuestions sampleAnswers 0 125999 false false).submitting
        = true := by
  decide

/-- Claim C7 (amended): if the attempt insert fails during submission,
the error is logged, no automatic retry is issued (exactly one insert
call), the completion callback does not fire, and the `finally` block
resets the `submitting` flag to `false`, returning the screen to the
Active quiz view rather than leaving it in the Submitting state. -/
theorem submit_failure_behavior (userId quizId : String)
    (questions : List Question) (answers : List (String × String))
    (startTime now : Nat) :
    (handleSubmitRun userId quizId questions answers startTime now false false).loggedError
        = true ∧
    (handleSubmitRun userId quizId questions answers startTime now false false).inserts
        = [handleSubmitInsert userId quizId questions answers startTime now] ∧
    (handleSubmitRun userId quizId questions answers startTime now false false).completedPayload
        = none ∧
    (handleSubmitRun userId quizId questions answers startTime now false false).submitting
        = false := by
  exact ⟨rfl, rfl, rfl, rfl⟩

/-- The component state `QuizResults.fetchQuizData` leaves behind, plus
bookkeeping for the specification: whether the catch block logged, and
how many of the three queries were actually issued (the `await` chain
stops at the first rejection). -/
structure ResultsFetchOutcome where
  quizTitle : String
  questions : List Question
  userAnswers : List (String × String)
  loading : Bool
  loggedError : Bool
  fetchesIssued : Nat
deriving DecidableEq

/-- `fetchQuizData` of the Results Viewer: three sequential awaited
queries (quiz title, question list, latest attempt's answers); each
error is thrown to the shared catch which logs it; the three `set`
calls run only after all three succeed; the `finally` block always
clears `loading`. -/
def fetchQuizDataRun (quizRes : Except String String)
    (questionsRes : Except String (List Question))
    (attemptRes : Except String (List (String × String))) : ResultsFetchOutcome :=
  match quizRes with
  | .error _ =>
    { quizTitle := "", questions := [], userAnswers := []
      loading := false, loggedError := true, fetchesIssued := 1 }
  | .ok title =>
    match questionsRes with
    | .error _ =>
      { quizTitle := "", questions := [], userAnswers := []
        loading := false, loggedError := true, fetchesIssued := 2 }
    | .ok qs =>
      match attemptRes with
      | .error _ =>
        { quizTitle := "", questions := [], userAnswers := []
          loading := false, loggedError := true, fetchesIssued := 3 }
      | .ok ans =>
        { quizTitle := title, questions := qs, userAnswers := ans
          loading := false, loggedError := false, fetchesIssued := 3 }

/-- Counterexample to C8 as stated: when the first fetch fails, the load
is indeed aborted (only one query issued, no data stored, the error
logged), but the screen is not left loading — the `finally` block sets
`loading` to `false`, so the results view renders with empty data. -/
theorem results_fetch_failure_not_loading :
    (fetchQuizDataRun (Except.error "boom") (Except.ok []) (Except.ok [])).fetchesIssued = 1 ∧
    (fetchQuizDataRun (Except.error "boom") (Except.ok []) (Except.ok [])).loggedError = true ∧
    ¬ (fetchQuizDataRun (Except.error "boom") (Except.ok []) (Except.ok [])).loading = true := by
  decide

/-- Claim C8 (amended): if any of the Results Viewer's three fetches
fails, the whole load is aborted from the first rejected call — no
query after the first failure is issued and no title, question list or
answer map is stored — the error is logged, and the loading flag is
cleared by the `finally` block, so the screen leaves the loading state
and renders the results view over empty data. -/
theorem results_fetch_failure_behavior (quizRes : Except String String)
    (questionsRes : Except String (List Question))
    (attemptRes : Except String (List (String × String)))
    (hfail : quizRes.isOk = false ∨ questionsRes.isOk = false ∨ attemptRes.isOk = false) :
    (fetchQuizDataRun quizRes questionsRes attemptRes).loading = false ∧
    (fetchQuizDataRun quizRes questionsRes attemptRes).loggedError = true ∧
    (fetchQuizDataRun quizRes questionsRes attemptRes).quizTitle = "" ∧
    (fetchQuizDataRun quizRes questionsRes attemptRes).questions = [] ∧
    (fetchQuizDataRun quizRes questionsRes attemptRes).userAnswers = [] ∧
    (quizRes.isOk = false →
      (fetchQuizDataRun quizRes questionsRes attemptRes).fetchesIssued = 1) ∧
    (quizRes.isOk = true → questionsRes.isOk = false →
      (fetchQuizDataRun quizRes questionsRes attemptRes).fetchesIssued = 2) := by
  cases quizRes with
  | error e =>
    exact ⟨rfl, rfl, rfl, rfl, rfl, fun _ => rfl, fun h _ => absurd h (by simp [Except.isOk, Except.toBool])⟩
  | ok title =>
    cases questionsRes with
    | error e =>
      exact ⟨rfl, rfl, rfl, rfl, rfl,
        fun h => absurd h (by simp [Except.isOk, Except.toBool]), fun _ _ => rfl⟩
    | ok qs =>
      cases attemptRes with
      | error e =>
        exact ⟨rfl, rfl, rfl, rfl, rfl,
          fun h => absurd h (by simp [Except.isOk, Except.toBool]),
          fun _ h => absurd h (by simp [Except.isOk, Except.toBool])⟩
      | ok ans =>
        rcases hfail with h | h | h <;> exact absurd h (by simp [Except.isOk, Except.toBool])

/-- Witness for C8: the first fetch rejects while the other two would
have succeeded. -/
theorem results_fetch_failure_behavior_witness :
    ((Except.error "boom" : Except String String).isOk = false ∨
      (Except.ok [] : Except String (List Question)).isOk = false ∨
      (Except.ok [] : Except String (List (String × String))).isOk = false) ∧
    (fetchQuizDataRun (Except.error "boom") (Except.ok []) (Except.ok [])).loading = false ∧
    (fetchQuizDataRun (Except.error "boom") (Except.ok []) (Except.ok [])).loggedError = true ∧
    (fetchQuizDataRun (Except.error "boom") (Except.ok []) (Except.ok [])).fetchesIssued = 1 := by
  have h := results_fetch_failure_behavior (Except.error "boom") (Except.ok [])
    (Except.ok []) (Or.inl (by decide))
  exact ⟨Or.inl (by decide), h.1, h.2.1, h.2.2.2.2.2.1 (by decide)⟩

end QuizMaster
